import Mathlib

set_option maxHeartbeats 1000000

/-!
Verification of the data access layer of the Cozinha de Pet application.

The definitions below are a shallow embedding of the entity schema
(shared/schema.ts), of the DatabaseStorage operations (server storage
module), and of the Express route handlers (server routes module).
Timestamps are modelled as natural numbers passed in explicitly where the
source calls new Date(); the relational store is modelled as lists of rows
with the serial id sequences carried in the state.  SQL constructs are
modelled by their documented semantics: eq by equality, isNull by Option
emptiness, like with percent wildcards around the pattern by substring
containment, orderBy desc by a descending sort, limit and offset by take
and drop, and the drizzle query builder where method by replacement of the
stored where clause, which is what the library does when where is invoked
repeatedly on one builder.  onDelete cascade rules declared in the schema
are executed as part of the corresponding delete operations.
-/

namespace CozinhaPet

/-- Pet type enumeration from the schema: pgEnum pet_type with values dog and cat. -/
inductive PetType
  | dog
  | cat
deriving DecidableEq

/-- Wire string of a pet type, as stored by the pgEnum column. -/
def PetType.toStr : PetType → String
  | .dog => "dog"
  | .cat => "cat"

/-- Recipe category enumeration: pgEnum category with values meat, poultry, fish, treats. -/
inductive Category
  | meat
  | poultry
  | fish
  | treats
deriving DecidableEq

/-- Wire string of a category, as stored by the pgEnum column. -/
def Category.toStr : Category → String
  | .meat => "meat"
  | .poultry => "poultry"
  | .fish => "fish"
  | .treats => "treats"

/-- Cooking type enumeration: pgEnum cooking_type with values raw, cooked, baked, mixed. -/
inductive CookingType
  | raw
  | cooked
  | baked
  | mixed
deriving DecidableEq

/-- Row of the users table. -/
structure UserRow where
  id : Nat
  username : String
  email : String
  password : String
  firstName : Option String := none
  lastName : Option String := none
  state : Option String := none
  city : Option String := none
  profileImageUrl : Option String := none
  createdAt : Nat
  updatedAt : Nat
deriving DecidableEq

/-- A users record as returned across the storage boundary: the TypeScript User
type after the destructuring that may have removed the password property, so the
password is an Option that is none exactly when the property was stripped. -/
structure UserOut where
  id : Nat
  username : String
  email : String
  password : Option String
  firstName : Option String
  lastName : Option String
  state : Option String
  city : Option String
  profileImageUrl : Option String
  createdAt : Nat
  updatedAt : Nat
deriving DecidableEq

/-- The destructuring pattern that drops the password property before returning a user. -/
def UserRow.stripPassword (u : UserRow) : UserOut :=
  { id := u.id, username := u.username, email := u.email, password := none,
    firstName := u.firstName, lastName := u.lastName, state := u.state,
    city := u.city, profileImageUrl := u.profileImageUrl,
    createdAt := u.createdAt, updatedAt := u.updatedAt }

/-- A users record returned with the password hash kept, as the username and
email lookups do. -/
def UserRow.withPassword (u : UserRow) : UserOut :=
  { id := u.id, username := u.username, email := u.email, password := some u.password,
    firstName := u.firstName, lastName := u.lastName, state := u.state,
    city := u.city, profileImageUrl := u.profileImageUrl,
    createdAt := u.createdAt, updatedAt := u.updatedAt }

/-- Row of the pets table. -/
structure PetRow where
  id : Nat
  userId : Nat
  name : String
  type : PetType
  breed : Option String := none
  age : Option Int := none
  weight : Option Int := none
  profileImageUrl : Option String := none
  createdAt : Nat
  updatedAt : Nat
deriving DecidableEq

/-- Row of the recipes table. -/
structure RecipeRow where
  id : Nat
  userId : Nat
  title : String
  ingredients : String
  instructions : String
  petType : PetType
  category : Category
  cookingType : CookingType
  prepTime : Int
  imageUrl : Option String := none
  youtubeUrl : Option String := none
  cookCount : Nat := 0
  createdAt : Nat
  updatedAt : Nat
deriving DecidableEq

/-- Row of the comments table. -/
structure CommentRow where
  id : Nat
  userId : Nat
  recipeId : Nat
  parentId : Option Nat := none
  content : String
  createdAt : Nat
  updatedAt : Nat
deriving DecidableEq

/-- Row of the favorites table. -/
structure FavoriteRow where
  id : Nat
  userId : Nat
  recipeId : Nat
  createdAt : Nat
deriving DecidableEq

/-- Row of the followers table. -/
structure FollowerRow where
  id : Nat
  followerId : Nat
  followingId : Nat
  createdAt : Nat
deriving DecidableEq

/-- The relational store: the six tables plus the serial id sequences. -/
structure DB where
  users : List UserRow := []
  pets : List PetRow := []
  recipes : List RecipeRow := []
  comments : List CommentRow := []
  favorites : List FavoriteRow := []
  followers : List FollowerRow := []
  nextUserId : Nat := 1
  nextPetId : Nat := 1
  nextRecipeId : Nat := 1
  nextCommentId : Nat := 1
  nextFavoriteId : Nat := 1
  nextFollowerId : Nat := 1
deriving DecidableEq

/-- Insertion contract for users: insertUserSchema omits id, createdAt, updatedAt. -/
structure InsertUser where
  username : String
  email : String
  password : String
  firstName : Option String := none
  lastName : Option String := none
  state : Option String := none
  city : Option String := none
  profileImageUrl : Option String := none
deriving DecidableEq

/-- Modelled from the spec: bcrypt.hash with cost ten is an external password
hashing library call, excluded from the source as an external collaborator.
The spec describes it as a slow, salted one-way hash, so it is modelled as a
digest that wraps the input behind the bcrypt format tag; the digest is
therefore always longer than, and in particular different from, the plaintext. -/
def bcryptHash (p : String) : String := "$2b$10$" ++ p

/-- Infix membership of a character list, modelling SQL like with percent
wildcards on both sides of the pattern. -/
def charsInfix (pat : List Char) : List Char → Bool
  | [] => pat.isPrefixOf []
  | c :: rest => pat.isPrefixOf (c :: rest) || charsInfix pat rest

/-- Case-sensitive substring test used to model like(column, percent-search-percent). -/
def strContains (s pat : String) : Bool := charsInfix pat.data s.data

/-- Descending order on a Nat key, modelling SQL orderBy desc over a timestamp column. -/
def byDesc {α : Type} (key : α → Nat) : α → α → Prop := fun a b => key b ≤ key a

instance {α : Type} (key : α → Nat) : DecidableRel (byDesc key) :=
  fun a b => Nat.decLe (key b) (key a)

instance {α : Type} (key : α → Nat) : IsTotal α (byDesc key) :=
  ⟨fun a b => Nat.le_total (key b) (key a)⟩

instance {α : Type} (key : α → Nat) : IsTrans α (byDesc key) :=
  ⟨fun _ _ _ hab hbc => Nat.le_trans hbc hab⟩

/-- Sort a table descending by a Nat key. -/
def sortByDesc {α : Type} (key : α → Nat) (l : List α) : List α :=
  List.insertionSort (byDesc key) l

/-- DatabaseStorage.getUser: select the first users row with the id, then strip
the password before returning. -/
def getUser (db : DB) (id : Nat) : Option UserOut :=
  (db.users.find? (fun u => u.id == id)).map UserRow.stripPassword

/-- DatabaseStorage.getUserByUsername: select by username; the password hash is
kept in the result for credential comparison. -/
def getUserByUsername (db : DB) (username : String) : Option UserRow :=
  db.users.find? (fun u => u.username == username)

/-- DatabaseStorage.getUserByEmail: select by email; the password hash is kept. -/
def getUserByEmail (db : DB) (email : String) : Option UserRow :=
  db.users.find? (fun u => u.email == email)

/-- The users row built by createUser: the supplied data with the password
replaced by its bcrypt hash and the system-assigned id and timestamps. -/
def newUserRow (id now : Nat) (data : InsertUser) : UserRow :=
  { id := id, username := data.username, email := data.email,
    password := bcryptHash data.password, firstName := data.firstName,
    lastName := data.lastName, state := data.state, city := data.city,
    profileImageUrl := data.profileImageUrl, createdAt := now, updatedAt := now }

/-- DatabaseStorage.createUser: hash the password, insert the row, and return
the created record with the password stripped. -/
def createUser (db : DB) (now : Nat) (data : InsertUser) : DB × UserOut :=
  let row := newUserRow db.nextUserId now data
  ({ db with users := db.users ++ [row], nextUserId := db.nextUserId + 1 },
   row.stripPassword)

/-- Partial users update: Partial of the insertion contract.  A nullable column
is patched with an inner Option, so some none sets the column to null while
none leaves it unchanged. -/
structure UserPatch where
  username : Option String := none
  email : Option String := none
  password : Option String := none
  firstName : Option (Option String) := none
  lastName : Option (Option String) := none
  state : Option (Option String) := none
  city : Option (Option String) := none
  profileImageUrl : Option (Option String) := none
deriving DecidableEq

/-- The password value actually written by updateUser: a truthy supplied
password is re-hashed before storage, a falsy empty string is written as is,
and an absent password leaves the column alone. -/
def userPatchPassword (up : UserPatch) : Option String :=
  match up.password with
  | some pw => if pw == "" then some pw else some (bcryptHash pw)
  | none => none

/-- The row produced by the updateUser set clause: supplied fields replace the
stored ones and updatedAt is refreshed. -/
def applyUserPatch (now : Nat) (up : UserPatch) (u : UserRow) : UserRow :=
  { u with username := up.username.getD u.username,
           email := up.email.getD u.email,
           password := (userPatchPassword up).getD u.password,
           firstName := up.firstName.getD u.firstName,
           lastName := up.lastName.getD u.lastName,
           state := up.state.getD u.state,
           city := up.city.getD u.city,
           profileImageUrl := up.profileImageUrl.getD u.profileImageUrl,
           updatedAt := now }

/-- DatabaseStorage.updateUser: when a truthy password is supplied it is
re-hashed first; the update statement sets the supplied fields and refreshes
updatedAt on every row whose id matches, and the first updated row is returned
with the password stripped. -/
def updateUser (db : DB) (now : Nat) (id : Nat) (up : UserPatch) : DB × Option UserOut :=
  let users2 := db.users.map (fun u => if u.id == id then applyUserPatch now up u else u)
  ({ db with users := users2 },
   (users2.find? (fun u => u.id == id)).map UserRow.stripPassword)

/-- DatabaseStorage.getPet. -/
def getPet (db : DB) (id : Nat) : Option PetRow :=
  db.pets.find? (fun p => p.id == id)

/-- DatabaseStorage.getPetsByUser. -/
def getPetsByUser (db : DB) (userId : Nat) : List PetRow :=
  db.pets.filter (fun p => p.userId == userId)

/-- Insertion contract for pets. -/
structure InsertPet where
  userId : Nat
  name : String
  type : PetType
  breed : Option String := none
  age : Option Int := none
  weight : Option Int := none
  profileImageUrl : Option String := none
deriving DecidableEq

/-- DatabaseStorage.createPet. -/
def createPet (db : DB) (now : Nat) (data : InsertPet) : DB × PetRow :=
  let row : PetRow :=
    { id := db.nextPetId, userId := data.userId, name := data.name,
      type := data.type, breed := data.breed, age := data.age,
      weight := data.weight, profileImageUrl := data.profileImageUrl,
      createdAt := now, updatedAt := now }
  ({ db with pets := db.pets ++ [row], nextPetId := db.nextPetId + 1 }, row)

/-- Partial pets update. -/
structure PetPatch where
  userId : Option Nat := none
  name : Option String := none
  type : Option PetType := none
  breed : Option (Option String) := none
  age : Option (Option Int) := none
  weight : Option (Option Int) := none
  profileImageUrl : Option (Option String) := none
deriving DecidableEq

/-- The row produced by the updatePet set clause. -/
def applyPetPatch (now : Nat) (pp : PetPatch) (p : PetRow) : PetRow :=
  { p with userId := pp.userId.getD p.userId,
           name := pp.name.getD p.name,
           type := pp.type.getD p.type,
           breed := pp.breed.getD p.breed,
           age := pp.age.getD p.age,
           weight := pp.weight.getD p.weight,
           profileImageUrl := pp.profileImageUrl.getD p.profileImageUrl,
           updatedAt := now }

/-- DatabaseStorage.updatePet: set the supplied fields and refresh updatedAt on
every row whose id matches; return the first updated row. -/
def updatePet (db : DB) (now : Nat) (id : Nat) (pp : PetPatch) : DB × Option PetRow :=
  let pets2 := db.pets.map (fun p => if p.id == id then applyPetPatch now pp p else p)
  ({ db with pets := pets2 }, pets2.find? (fun p => p.id == id))

/-- DatabaseStorage.deletePet: delete matching rows and report true
unconditionally.  Nothing references pets, so no cascade fires. -/
def deletePet (db : DB) (id : Nat) : DB × Bool :=
  ({ db with pets := db.pets.filter (fun p => !(p.id == id)) }, true)

/-- DatabaseStorage.getRecipe. -/
def getRecipe (db : DB) (id : Nat) : Option RecipeRow :=
  db.recipes.find? (fun r => r.id == id)

/-- DatabaseStorage.getRecipes.  The limit defaults to ten when absent or zero
(JavaScript falsy check), the offset is page minus one times the limit for a
truthy page and zero otherwise, and each supplied truthy filter is installed
with the builder where method, which replaces the previously installed where
clause, so only the last supplied filter is applied to the rows.  The rows are
ordered newest first by createdAt, then offset and limit are applied. -/
def getRecipes (db : DB) (petType category search : Option String)
    (page limit : Option Nat) : List RecipeRow :=
  let lim := match limit with
    | some l => if l == 0 then 10 else l
    | none => 10
  let off := match page with
    | some p => if p == 0 then 0 else (p - 1) * lim
    | none => 0
  let w0 : Option (RecipeRow → Bool) := none
  let w1 := match petType with
    | some s => if s == "" then w0 else some (fun r => r.petType.toStr == s)
    | none => w0
  let w2 := match category with
    | some s => if s == "" then w1 else some (fun r => r.category.toStr == s)
    | none => w1
  let w3 := match search with
    | some s => if s == "" then w2
        else some (fun r => strContains r.title s || strContains r.ingredients s)
    | none => w2
  let rows := match w3 with
    | some f => db.recipes.filter f
    | none => db.recipes
  ((sortByDesc RecipeRow.createdAt rows).drop off).take lim

/-- DatabaseStorage.getRecipesByUser: rows of the user ordered newest first. -/
def getRecipesByUser (db : DB) (userId : Nat) : List RecipeRow :=
  sortByDesc RecipeRow.createdAt (db.recipes.filter (fun r => r.userId == userId))

/-- Insertion contract for recipes: insertRecipeSchema omits id, cookCount,
createdAt, updatedAt, so cookCount always starts at its column default zero. -/
structure InsertRecipe where
  userId : Nat
  title : String
  ingredients : String
  instructions : String
  petType : PetType
  category : Category
  cookingType : CookingType
  prepTime : Int
  imageUrl : Option String := none
  youtubeUrl : Option String := none
deriving DecidableEq

/-- DatabaseStorage.createRecipe. -/
def createRecipe (db : DB) (now : Nat) (data : InsertRecipe) : DB × RecipeRow :=
  let row : RecipeRow :=
    { id := db.nextRecipeId, userId := data.userId, title := data.title,
      ingredients := data.ingredients, instructions := data.instructions,
      petType := data.petType, category := data.category,
      cookingType := data.cookingType, prepTime := data.prepTime,
      imageUrl := data.imageUrl, youtubeUrl := data.youtubeUrl,
      cookCount := 0, createdAt := now, updatedAt := now }
  ({ db with recipes := db.recipes ++ [row], nextRecipeId := db.nextRecipeId + 1 }, row)

/-- Partial recipes update: Partial of the drizzle insert type, which includes
userId and cookCount. -/
structure RecipePatch where
  userId : Option Nat := none
  title : Option String := none
  ingredients : Option String := none
  instructions : Option String := none
  petType : Option PetType := none
  category : Option Category := none
  cookingType : Option CookingType := none
  prepTime : Option Int := none
  imageUrl : Option (Option String) := none
  youtubeUrl : Option (Option String) := none
  cookCount : Option Nat := none
deriving DecidableEq

/-- The row produced by the updateRecipe set clause. -/
def applyRecipePatch (now : Nat) (rp : RecipePatch) (r : RecipeRow) : RecipeRow :=
  { r with userId := rp.userId.getD r.userId,
           title := rp.title.getD r.title,
           ingredients := rp.ingredients.getD r.ingredients,
           instructions := rp.instructions.getD r.instructions,
           petType := rp.petType.getD r.petType,
           category := rp.category.getD r.category,
           cookingType := rp.cookingType.getD r.cookingType,
           prepTime := rp.prepTime.getD r.prepTime,
           imageUrl := rp.imageUrl.getD r.imageUrl,
           youtubeUrl := rp.youtubeUrl.getD r.youtubeUrl,
           cookCount := rp.cookCount.getD r.cookCount,
           updatedAt := now }

/-- DatabaseStorage.updateRecipe: set the supplied fields and refresh updatedAt
on every row whose id matches; return the first updated row. -/
def updateRecipe (db : DB) (now : Nat) (id : Nat) (rp : RecipePatch) : DB × Option RecipeRow :=
  let recipes2 := db.recipes.map (fun r => if r.id == id then applyRecipePatch now rp r else r)
  ({ db with recipes := recipes2 }, recipes2.find? (fun r => r.id == id))

/-- One step of the comments cascade: add the ids of comments whose parent id is
already dead. -/
def deadStep (cs : List CommentRow) (dead : List Nat) : List Nat :=
  dead ++ (cs.filter (fun c =>
    !(dead.contains c.id) &&
      (match c.parentId with
       | some p => dead.contains p
       | none => false))).map (fun c => c.id)

/-- Iterate the comments cascade step a fixed number of times. -/
def deadIter (cs : List CommentRow) : Nat → List Nat → List Nat
  | 0, dead => dead
  | n + 1, dead => deadIter cs n (deadStep cs dead)

/-- Comments removed by the onDelete cascade declared on comments.parentId:
starting from the directly deleted comments, every descendant through the
parent pointer is removed as well.  Iterating the closure step once per row
reaches the fixpoint. -/
def commentCascade (cs : List CommentRow) (dead0 : CommentRow → Bool) : List CommentRow :=
  let dead := deadIter cs cs.length ((cs.filter dead0).map (fun c => c.id))
  cs.filter (fun c => !(dead.contains c.id))

/-- DatabaseStorage.deleteRecipe: delete the recipes row and report true
unconditionally; the onDelete cascade rules declared on favorites.recipeId,
comments.recipeId and comments.parentId remove the dependent rows. -/
def deleteRecipe (db : DB) (id : Nat) : DB × Bool :=
  ({ db with recipes := db.recipes.filter (fun r => !(r.id == id)),
             favorites := db.favorites.filter (fun f => !(f.recipeId == id)),
             comments := commentCascade db.comments (fun c => c.recipeId == id) },
   true)

/-- ToPrimitive of a drizzle Column object, as JavaScript computes it when the
column appears as an operand of the plus operator: valueOf returns the object
itself, so the default toString gives the generic object tag. -/
def columnToPrimitive : String := "[object Object]"

/-- The cookCount value the incrementCookCount set clause actually carries:
JavaScript evaluates recipes.cookCount + 1 eagerly, and recipes.cookCount is
the drizzle Column object, so the plus concatenates the stringified column
with the number one instead of building an SQL increment. -/
def cookCountSetValue : String := columnToPrimitive ++ "1"

/-- Value of an unsigned decimal digit string. -/
def digitsToNat (cs : List Char) : Nat :=
  cs.foldl (fun acc c => acc * 10 + (c.toNat - 48)) 0

/-- PostgreSQL input cast of a textual parameter into an integer column,
for the nonnegative values this layer can send: the cast succeeds exactly on
nonempty all-digit strings and raises otherwise. -/
def pgIntCast? (s : String) : Option Nat :=
  if s.data.length != 0 && s.data.all Char.isDigit then some (digitsToNat s.data)
  else none

/-- DatabaseStorage.incrementCookCount: the set clause computes
recipes.cookCount + 1 in JavaScript, where recipes.cookCount is the drizzle
Column object, so the database receives the string produced by that
concatenation for the integer cookCount column.  When the cast succeeds the
update would write the cast value and a refreshed updatedAt into every row
whose id matches and return the first updated row; on the value actually sent
the cast fails, the statement raises, the promise rejects, and no row changes. -/
def incrementCookCount (db : DB) (now : Nat) (id : Nat) :
    DB × Except String (Option RecipeRow) :=
  match pgIntCast? cookCountSetValue with
  | some v =>
    let recipes2 := db.recipes.map (fun r =>
      if r.id == id then { r with cookCount := v, updatedAt := now } else r)
    ({ db with recipes := recipes2 }, .ok (recipes2.find? (fun r => r.id == id)))
  | none => (db, .error "invalid input syntax for type integer")

/-- DatabaseStorage.getComments: comments of the recipe whose parentId is null,
ordered newest first. -/
def getComments (db : DB) (recipeId : Nat) : List CommentRow :=
  sortByDesc CommentRow.createdAt
    (db.comments.filter (fun c => c.recipeId == recipeId && c.parentId.isNone))

/-- DatabaseStorage.getReplies: comments whose parentId equals the comment id,
ordered newest first. -/
def getReplies (db : DB) (commentId : Nat) : List CommentRow :=
  sortByDesc CommentRow.createdAt
    (db.comments.filter (fun c => c.parentId == some commentId))

/-- Insertion contract for comments. -/
structure InsertComment where
  userId : Nat
  recipeId : Nat
  parentId : Option Nat := none
  content : String
deriving DecidableEq

/-- DatabaseStorage.createComment. -/
def createComment (db : DB) (now : Nat) (data : InsertComment) : DB × CommentRow :=
  let row : CommentRow :=
    { id := db.nextCommentId, userId := data.userId, recipeId := data.recipeId,
      parentId := data.parentId, content := data.content,
      createdAt := now, updatedAt := now }
  ({ db with comments := db.comments ++ [row], nextCommentId := db.nextCommentId + 1 }, row)

/-- DatabaseStorage.deleteComment: delete the comments row and report true
unconditionally; the onDelete cascade on comments.parentId removes the reply
subtree. -/
def deleteComment (db : DB) (id : Nat) : DB × Bool :=
  ({ db with comments := commentCascade db.comments (fun c => c.id == id) }, true)

/-- DatabaseStorage.getFavorites: inner join of the favorites of the user with
recipes, ordered by favorite creation newest first, projected to the recipe. -/
def getFavorites (db : DB) (userId : Nat) : List RecipeRow :=
  (sortByDesc FavoriteRow.createdAt
    (db.favorites.filter (fun f => f.userId == userId))).flatMap
      (fun f => db.recipes.filter (fun r => r.id == f.recipeId))

/-- DatabaseStorage.isFavorite: whether a favorites row for the pair exists. -/
def isFavorite (db : DB) (userId recipeId : Nat) : Bool :=
  (db.favorites.find? (fun f => f.userId == userId && f.recipeId == recipeId)).isSome

/-- Insertion contract for favorites. -/
structure InsertFavorite where
  userId : Nat
  recipeId : Nat
deriving DecidableEq

/-- DatabaseStorage.addFavorite: unconditional insert of a favorites row. -/
def addFavorite (db : DB) (now : Nat) (data : InsertFavorite) : DB × FavoriteRow :=
  let row : FavoriteRow :=
    { id := db.nextFavoriteId, userId := data.userId, recipeId := data.recipeId,
      createdAt := now }
  ({ db with favorites := db.favorites ++ [row],
             nextFavoriteId := db.nextFavoriteId + 1 }, row)

/-- DatabaseStorage.removeFavorite: delete all favorites rows of the pair and
report true unconditionally. -/
def removeFavorite (db : DB) (userId recipeId : Nat) : DB × Bool :=
  ({ db with favorites := db.favorites.filter (fun f =>
      !(f.userId == userId && f.recipeId == recipeId)) }, true)

/-- DatabaseStorage.getFollowers: inner join of followers rows pointing at the
user with users, each returned with the password stripped. -/
def getFollowers (db : DB) (userId : Nat) : List UserOut :=
  ((db.followers.filter (fun f => f.followingId == userId)).flatMap
    (fun f => db.users.filter (fun u => u.id == f.followerId))).map
      UserRow.stripPassword

/-- DatabaseStorage.getFollowing: inner join of followers rows owned by the
user with users, each returned with the password stripped. -/
def getFollowing (db : DB) (userId : Nat) : List UserOut :=
  ((db.followers.filter (fun f => f.followerId == userId)).flatMap
    (fun f => db.users.filter (fun u => u.id == f.followingId))).map
      UserRow.stripPassword

/-- DatabaseStorage.isFollowing. -/
def isFollowing (db : DB) (followerId followingId : Nat) : Bool :=
  (db.followers.find? (fun f =>
    f.followerId == followerId && f.followingId == followingId)).isSome

/-- Insertion contract for followers. -/
structure InsertFollower where
  followerId : Nat
  followingId : Nat
deriving DecidableEq

/-- DatabaseStorage.follow: unconditional insert of a followers row. -/
def follow (db : DB) (now : Nat) (data : InsertFollower) : DB × FollowerRow :=
  let row : FollowerRow :=
    { id := db.nextFollowerId, followerId := data.followerId,
      followingId := data.followingId, createdAt := now }
  ({ db with followers := db.followers ++ [row],
             nextFollowerId := db.nextFollowerId + 1 }, row)

/-- DatabaseStorage.unfollow: delete all followers rows of the pair and report
true unconditionally. -/
def unfollow (db : DB) (followerId followingId : Nat) : DB × Bool :=
  ({ db with followers := db.followers.filter (fun f =>
      !(f.followerId == followerId && f.followingId == followingId)) }, true)

/-- Outcome of a route handler: the HTTP response shapes the routes produce. -/
inductive HResp (α : Type)
  | ok (a : α)
  | created (a : α)
  | badRequest (msg : String)
  | notFound (msg : String)
  | forbidden (msg : String)
  | unauthorized
  | serverError (msg : String)
deriving DecidableEq

/-- The authenticate middleware: the session user must resolve through getUser. -/
def authOk (db : DB) (uid : Nat) : Bool := (getUser db uid).isSome

/-- POST /api/auth/register: reject a duplicate email, then a duplicate
username, then create the user and answer 201 with the password stripped. -/
def registerHandler (db : DB) (now : Nat) (data : InsertUser) : DB × HResp UserOut :=
  match getUserByEmail db data.email with
  | some _ => (db, .badRequest "Email already registered")
  | none =>
    match getUserByUsername db data.username with
    | some _ => (db, .badRequest "Username already taken")
    | none =>
      let c := createUser db now data
      (c.1, .created c.2)

/-- Request body of POST /api/pets: pet fields without the session-assigned userId. -/
structure PetBody where
  name : String
  type : PetType
  breed : Option String := none
  age : Option Int := none
  weight : Option Int := none
  profileImageUrl : Option String := none
deriving DecidableEq

/-- POST /api/pets. -/
def createPetHandler (db : DB) (now uid : Nat) (body : PetBody) : DB × HResp PetRow :=
  match getUser db uid with
  | none => (db, .unauthorized)
  | some _ =>
    let c := createPet db now
      { userId := uid, name := body.name, type := body.type, breed := body.breed,
        age := body.age, weight := body.weight, profileImageUrl := body.profileImageUrl }
    (c.1, .created c.2)

/-- PUT /api/pets/:id: the pet must exist and belong to the session user. -/
def updatePetHandler (db : DB) (now uid pid : Nat) (pp : PetPatch) : DB × HResp (Option PetRow) :=
  match getUser db uid with
  | none => (db, .unauthorized)
  | some _ =>
    match getPet db pid with
    | none => (db, .notFound "Pet not found")
    | some pet =>
      if pet.userId == uid then
        let u := updatePet db now pid pp
        (u.1, .ok u.2)
      else (db, .forbidden "Not authorized")

/-- DELETE /api/pets/:id: the pet must exist and belong to the session user. -/
def deletePetHandler (db : DB) (uid pid : Nat) : DB × HResp Unit :=
  match getUser db uid with
  | none => (db, .unauthorized)
  | some _ =>
    match getPet db pid with
    | none => (db, .notFound "Pet not found")
    | some pet =>
      if pet.userId == uid then ((deletePet db pid).1, .ok ())
      else (db, .forbidden "Not authorized")

/-- Request body of POST /api/recipes, after zod validation through
insertRecipeSchema: userId comes from the session and cookCount cannot be supplied. -/
structure RecipeBody where
  title : String
  ingredients : String
  instructions : String
  petType : PetType
  category : Category
  cookingType : CookingType
  prepTime : Int
  imageUrl : Option String := none
  youtubeUrl : Option String := none
deriving DecidableEq

/-- POST /api/recipes. -/
def createRecipeHandler (db : DB) (now uid : Nat) (body : RecipeBody) : DB × HResp RecipeRow :=
  match getUser db uid with
  | none => (db, .unauthorized)
  | some _ =>
    let c := createRecipe db now
      { userId := uid, title := body.title, ingredients := body.ingredients,
        instructions := body.instructions, petType := body.petType,
        category := body.category, cookingType := body.cookingType,
        prepTime := body.prepTime, imageUrl := body.imageUrl,
        youtubeUrl := body.youtubeUrl }
    (c.1, .created c.2)

/-- PUT /api/recipes/:id: the recipe must exist and belong to the session user. -/
def updateRecipeHandler (db : DB) (now uid rid : Nat) (rp : RecipePatch) :
    DB × HResp (Option RecipeRow) :=
  match getUser db uid with
  | none => (db, .unauthorized)
  | some _ =>
    match getRecipe db rid with
    | none => (db, .notFound "Recipe not found")
    | some recipe =>
      if recipe.userId == uid then
        let u := updateRecipe db now rid rp
        (u.1, .ok u.2)
      else (db, .forbidden "Not authorized")

/-- DELETE /api/recipes/:id: the recipe must exist and belong to the session user. -/
def deleteRecipeHandler (db : DB) (uid rid : Nat) : DB × HResp Unit :=
  match getUser db uid with
  | none => (db, .unauthorized)
  | some _ =>
    match getRecipe db rid with
    | none => (db, .notFound "Recipe not found")
    | some recipe =>
      if recipe.userId == uid then ((deleteRecipe db rid).1, .ok ())
      else (db, .forbidden "Not authorized")

/-- POST /api/recipes/:id/cook: the recipe must exist; then the increment call
runs, and its rejection is caught by the route and answered with a 500. -/
def cookHandler (db : DB) (now uid rid : Nat) : DB × HResp (Option RecipeRow) :=
  match getUser db uid with
  | none => (db, .unauthorized)
  | some _ =>
    match getRecipe db rid with
    | none => (db, .notFound "Recipe not found")
    | some _ =>
      let u := incrementCookCount db now rid
      match u.2 with
      | .ok v => (u.1, .ok v)
      | .error _ => (db, .serverError "Server error")

/-- Request body of POST /api/recipes/:recipeId/comments. -/
structure CommentBody where
  content : String
  parentId : Option Nat := none
deriving DecidableEq

/-- POST /api/recipes/:recipeId/comments: the recipe must exist. -/
def createCommentHandler (db : DB) (now uid rid : Nat) (body : CommentBody) :
    DB × HResp CommentRow :=
  match getUser db uid with
  | none => (db, .unauthorized)
  | some _ =>
    match getRecipe db rid with
    | none => (db, .notFound "Recipe not found")
    | some _ =>
      let c := createComment db now
        { userId := uid, recipeId := rid, parentId := body.parentId,
          content := body.content }
      (c.1, .created c.2)

/-- DELETE /api/comments/:id: the comment must exist and belong to the session user. -/
def deleteCommentHandler (db : DB) (uid cid : Nat) : DB × HResp Unit :=
  match getUser db uid with
  | none => (db, .unauthorized)
  | some _ =>
    match db.comments.find? (fun c => c.id == cid) with
    | none => (db, .notFound "Comment not found")
    | some c =>
      if c.userId == uid then ((deleteComment db cid).1, .ok ())
      else (db, .forbidden "Not authorized")

/-- POST /api/recipes/:recipeId/favorite: the recipe must exist and the pair
must not already be favorited; then insert. -/
def postFavoriteHandler (db : DB) (now uid rid : Nat) : DB × HResp FavoriteRow :=
  match getUser db uid with
  | none => (db, .unauthorized)
  | some _ =>
    match getRecipe db rid with
    | none => (db, .notFound "Recipe not found")
    | some _ =>
      if isFavorite db uid rid then (db, .badRequest "Recipe already favorited")
      else
        let a := addFavorite db now { userId := uid, recipeId := rid }
        (a.1, .created a.2)

/-- DELETE /api/recipes/:recipeId/favorite: 404 when the pair is not favorited. -/
def deleteFavoriteHandler (db : DB) (uid rid : Nat) : DB × HResp Unit :=
  match getUser db uid with
  | none => (db, .unauthorized)
  | some _ =>
    if isFavorite db uid rid then ((removeFavorite db uid rid).1, .ok ())
    else (db, .notFound "Favorite not found")

/-- POST /api/users/:userId/follow: the target must exist, must not be the
session user, and must not already be followed. -/
def followHandler (db : DB) (now uid target : Nat) : DB × HResp FollowerRow :=
  match getUser db uid with
  | none => (db, .unauthorized)
  | some _ =>
    match getUser db target with
    | none => (db, .notFound "User not found")
    | some _ =>
      if target == uid then (db, .badRequest "Cannot follow yourself")
      else if isFollowing db uid target then (db, .badRequest "Already following this user")
      else
        let f := follow db now { followerId := uid, followingId := target }
        (f.1, .created f.2)

/-- DELETE /api/users/:userId/follow: 404 when not currently following. -/
def unfollowHandler (db : DB) (uid target : Nat) : DB × HResp Unit :=
  match getUser db uid with
  | none => (db, .unauthorized)
  | some _ =>
    if isFollowing db uid target then ((unfollow db uid target).1, .ok ())
    else (db, .notFound "Not following this user")

/-- PUT /api/users/profile: partial update of the session user. -/
def updateProfileHandler (db : DB) (now uid : Nat) (up : UserPatch) :
    DB × HResp (Option UserOut) :=
  match getUser db uid with
  | none => (db, .unauthorized)
  | some _ =>
    let u := updateUser db now uid up
    (u.1, .ok u.2)

/-- One mutating call through the public route handlers. -/
inductive HandlerStep : DB → DB → Prop
  | register (db : DB) (now : Nat) (data : InsertUser) :
      HandlerStep db (registerHandler db now data).1
  | createPet (db : DB) (now uid : Nat) (body : PetBody) :
      HandlerStep db (createPetHandler db now uid body).1
  | updatePet (db : DB) (now uid pid : Nat) (pp : PetPatch) :
      HandlerStep db (updatePetHandler db now uid pid pp).1
  | deletePet (db : DB) (uid pid : Nat) :
      HandlerStep db (deletePetHandler db uid pid).1
  | createRecipe (db : DB) (now uid : Nat) (body : RecipeBody) :
      HandlerStep db (createRecipeHandler db now uid body).1
  | updateRecipe (db : DB) (now uid rid : Nat) (rp : RecipePatch) :
      HandlerStep db (updateRecipeHandler db now uid rid rp).1
  | deleteRecipe (db : DB) (uid rid : Nat) :
      HandlerStep db (deleteRecipeHandler db uid rid).1
  | cook (db : DB) (now uid rid : Nat) :
      HandlerStep db (cookHandler db now uid rid).1
  | createComment (db : DB) (now uid rid : Nat) (body : CommentBody) :
      HandlerStep db (createCommentHandler db now uid rid body).1
  | deleteComment (db : DB) (uid cid : Nat) :
      HandlerStep db (deleteCommentHandler db uid cid).1
  | postFavorite (db : DB) (now uid rid : Nat) :
      HandlerStep db (postFavoriteHandler db now uid rid).1
  | deleteFavorite (db : DB) (uid rid : Nat) :
      HandlerStep db (deleteFavoriteHandler db uid rid).1
  | followUser (db : DB) (now uid target : Nat) :
      HandlerStep db (followHandler db now uid target).1
  | unfollowUser (db : DB) (uid target : Nat) :
      HandlerStep db (unfollowHandler db uid target).1
  | updateProfile (db : DB) (now uid : Nat) (up : UserPatch) :
      HandlerStep db (updateProfileHandler db now uid up).1

/-- States reachable from the empty store through the public route handlers. -/
def Reachable (db : DB) : Prop :=
  Relation.ReflTransGen HandlerStep {} db

/-- At most one favorites row per (userId, recipeId) pair. -/
def FavPairUnique (db : DB) : Prop :=
  List.Pairwise (fun a b : FavoriteRow => a.userId ≠ b.userId ∨ a.recipeId ≠ b.recipeId)
    db.favorites

/-- Modelled from the spec: the storage interface has no user delete operation,
only the schema declares onDelete cascade on every foreign key into users.
This models a users row deletion as the database executes it under those
declared rules: pets, recipes, comments and favorites of the user and both
follower edges disappear, favorites and comments of the removed recipes
disappear through the recipe foreign keys, and reply subtrees of removed
comments disappear through the parent pointer. -/
def deleteUser (db : DB) (id : Nat) : DB :=
  let deadRecipeIds := (db.recipes.filter (fun r => r.userId == id)).map (fun r => r.id)
  { db with
    users := db.users.filter (fun u => !(u.id == id)),
    pets := db.pets.filter (fun p => !(p.userId == id)),
    recipes := db.recipes.filter (fun r => !(r.userId == id)),
    favorites := db.favorites.filter (fun f =>
      !(f.userId == id) && !(deadRecipeIds.contains f.recipeId)),
    comments := commentCascade db.comments (fun c =>
      c.userId == id || deadRecipeIds.contains c.recipeId),
    followers := db.followers.filter (fun f =>
      !(f.followerId == id) && !(f.followingId == id)) }

/-- A dog recipe in the treats category, created first. -/
def recDog : RecipeRow :=
  { id := 1, userId := 1, title := "Frango Assado", ingredients := "chicken",
    instructions := "bake", petType := .dog, category := .treats,
    cookingType := .baked, prepTime := 40, createdAt := 1, updatedAt := 1 }

/-- A cat recipe in the treats category, created second. -/
def recCat : RecipeRow :=
  { id := 2, userId := 1, title := "Peixe Cozido", ingredients := "fish",
    instructions := "cook", petType := .cat, category := .treats,
    cookingType := .cooked, prepTime := 20, createdAt := 2, updatedAt := 2 }

/-- A store holding one dog recipe and one cat recipe, both in treats. -/
def dbTwoRecipes : DB := { recipes := [recDog, recCat], nextRecipeId := 3 }

/-- Registration data for the example user. -/
def anaData : InsertUser := { username := "ana", email := "ana@x.com", password := "pw" }

/-- Recipe body for the example recipe. -/
def frangoBody : RecipeBody :=
  { title := "Frango Assado", ingredients := "chicken", instructions := "bake",
    petType := .dog, category := .poultry, cookingType := .baked, prepTime := 40 }

/-- State after registering the example user in the empty store. -/
def dbS1 : DB := (registerHandler {} 0 anaData).1

/-- State after the example user creates a recipe. -/
def dbS2 : DB := (createRecipeHandler dbS1 1 1 frangoBody).1

/-- State after the example user favorites the recipe. -/
def dbS3 : DB := (postFavoriteHandler dbS2 2 1 1).1

/-- Registration data that reuses the username of the example user. -/
def anaDupData : InsertUser :=
  { username := "ana", email := "other@x.com", password := "qq" }

/-- A stored user row for the frame example. -/
def uFrame : UserRow :=
  { id := 1, username := "ana", email := "ana@x.com", password := "h", state := some "SP",
    createdAt := 0, updatedAt := 0 }

/-- A stored pet row for the frame example. -/
def pFrame : PetRow :=
  { id := 1, userId := 1, name := "Rex", type := .dog, breed := some "lab",
    createdAt := 0, updatedAt := 0 }

/-- A stored recipe row for the frame example. -/
def rFrame : RecipeRow :=
  { id := 1, userId := 1, title := "Frango", ingredients := "chicken",
    instructions := "bake", petType := .dog, category := .poultry,
    cookingType := .baked, prepTime := 40, cookCount := 2,
    createdAt := 0, updatedAt := 0 }

/-- A store holding the frame example rows. -/
def dbFrame : DB :=
  { users := [uFrame], pets := [pFrame], recipes := [rFrame],
    nextUserId := 2, nextPetId := 2, nextRecipeId := 2 }

/-- A patch for the frame example that only supplies firstName. -/
def upFrame : UserPatch := { firstName := some (some "Ana") }

/-- A patch for the frame example that only supplies the pet name. -/
def ppFrame : PetPatch := { name := some "Bobby" }

/-- A patch for the frame example that supplies the title and the cook count. -/
def rpFrame : RecipePatch := { title := some "Frango Novo", cookCount := some 7 }

/-- An update statement touches exactly the rows whose key matches, so when the
first matching row is a, after the update the first matching row is g a,
provided g preserves the key. -/
theorem find?_map_ite {α : Type} (key : α → Nat) (id : Nat) (g : α → α)
    (hg : ∀ a, key a = id → key (g a) = id) :
    ∀ (l : List α) (a : α), l.find? (fun x => key x == id) = some a →
      (l.map (fun x => if key x == id then g x else x)).find? (fun x => key x == id) =
        some (g a)
  | [], a, h => by simp at h
  | b :: t, a, h => by
    by_cases hb : key b = id
    · have hb2 : (key b == id) = true := by simpa using hb
      rw [@List.find?_cons_of_pos _ (fun x => key x == id) b t hb2] at h
      injection h with h
      subst h
      simp only [List.map_cons]
      rw [if_pos hb2]
      exact @List.find?_cons_of_pos _ (fun x => key x == id) (g b) _ (by simpa using hg b hb)
    · have hb2 : ¬((key b == id) = true) := by simpa using hb
      rw [@List.find?_cons_of_neg _ (fun x => key x == id) b t hb2] at h
      simp only [List.map_cons]
      rw [if_neg hb2]
      rw [@List.find?_cons_of_neg _ (fun x => key x == id) b _ hb2]
      exact find?_map_ite key id g hg t a h

/-- The cascade step only adds ids. -/
theorem mem_deadStep (cs : List CommentRow) (dead : List Nat) (x : Nat) (h : x ∈ dead) :
    x ∈ deadStep cs dead :=
  List.mem_append_left _ h

/-- The iterated cascade only adds ids. -/
theorem mem_deadIter (cs : List CommentRow) :
    ∀ (n : Nat) (dead : List Nat) (x : Nat), x ∈ dead → x ∈ deadIter cs n dead
  | 0, _, _, h => h
  | n + 1, dead, x, h => mem_deadIter cs n (deadStep cs dead) x (mem_deadStep cs dead x h)

/-- Every comment surviving the cascade fails the direct deletion test. -/
theorem not_dead0_of_mem_commentCascade (cs : List CommentRow) (dead0 : CommentRow → Bool)
    (c : CommentRow) (h : c ∈ commentCascade cs dead0) : dead0 c = false := by
  unfold commentCascade at h
  rcases List.mem_filter.mp h with ⟨hmem, hkeep⟩
  cases hd : dead0 c with
  | false => rfl
  | true =>
    exfalso
    have h1 : c.id ∈ (cs.filter dead0).map (fun c => c.id) :=
      List.mem_map.mpr ⟨c, List.mem_filter.mpr ⟨hmem, hd⟩, rfl⟩
    have h2 : c.id ∈ deadIter cs cs.length ((cs.filter dead0).map (fun c => c.id)) :=
      mem_deadIter cs _ _ _ h1
    have h3 : (deadIter cs cs.length ((cs.filter dead0).map (fun c => c.id))).contains c.id
        = true := List.elem_iff.mpr h2
    simp only [h3, Bool.not_true] at hkeep
    exact Bool.false_ne_true hkeep

/-- The surviving comments are a sublist of the original comments. -/
theorem commentCascade_sublist (cs : List CommentRow) (dead0 : CommentRow → Bool) :
    (commentCascade cs dead0).Sublist cs := by
  unfold commentCascade
  exact List.filter_sublist cs

/-- The invariant on pairs only looks at the favorites table. -/
theorem favInv_of_eq {db db2 : DB} (e : db2.favorites = db.favorites)
    (h : FavPairUnique db) : FavPairUnique db2 := by
  unfold FavPairUnique at h ⊢
  rw [e]
  exact h

/-- Registration does not touch favorites. -/
theorem favs_registerHandler (db : DB) (now : Nat) (data : InsertUser) :
    ((registerHandler db now data).1).favorites = db.favorites := by
  unfold registerHandler createUser
  repeat' split
  all_goals rfl

/-- Pet creation does not touch favorites. -/
theorem favs_createPetHandler (db : DB) (now uid : Nat) (body : PetBody) :
    ((createPetHandler db now uid body).1).favorites = db.favorites := by
  unfold createPetHandler createPet
  repeat' split
  all_goals rfl

/-- Pet update does not touch favorites. -/
theorem favs_updatePetHandler (db : DB) (now uid pid : Nat) (pp : PetPatch) :
    ((updatePetHandler db now uid pid pp).1).favorites = db.favorites := by
  unfold updatePetHandler updatePet
  repeat' split
  all_goals rfl

/-- Pet deletion does not touch favorites. -/
theorem favs_deletePetHandler (db : DB) (uid pid : Nat) :
    ((deletePetHandler db uid pid).1).favorites = db.favorites := by
  unfold deletePetHandler deletePet
  repeat' split
  all_goals rfl

/-- Recipe creation does not touch favorites. -/
theorem favs_createRecipeHandler (db : DB) (now uid : Nat) (body : RecipeBody) :
    ((createRecipeHandler db now uid body).1).favorites = db.favorites := by
  unfold createRecipeHandler createRecipe
  repeat' split
  all_goals rfl

/-- Recipe update does not touch favorites. -/
theorem favs_updateRecipeHandler (db : DB) (now uid rid : Nat) (rp : RecipePatch) :
    ((updateRecipeHandler db now uid rid rp).1).favorites = db.favorites := by
  unfold updateRecipeHandler updateRecipe
  repeat' split
  all_goals rfl

/-- Cook counting does not touch favorites. -/
theorem favs_cookHandler (db : DB) (now uid rid : Nat) :
    ((cookHandler db now uid rid).1).favorites = db.favorites := by
  unfold cookHandler incrementCookCount
  repeat' split
  all_goals rfl

/-- Comment creation does not touch favorites. -/
theorem favs_createCommentHandler (db : DB) (now uid rid : Nat) (body : CommentBody) :
    ((createCommentHandler db now uid rid body).1).favorites = db.favorites := by
  unfold createCommentHandler createComment
  repeat' split
  all_goals rfl

/-- Comment deletion does not touch favorites. -/
theorem favs_deleteCommentHandler (db : DB) (uid cid : Nat) :
    ((deleteCommentHandler db uid cid).1).favorites = db.favorites := by
  unfold deleteCommentHandler deleteComment
  repeat' split
  all_goals rfl

/-- Following does not touch favorites. -/
theorem favs_followHandler (db : DB) (now uid target : Nat) :
    ((followHandler db now uid target).1).favorites = db.favorites := by
  unfold followHandler follow
  repeat' split
  all_goals rfl

/-- Unfollowing does not touch favorites. -/
theorem favs_unfollowHandler (db : DB) (uid target : Nat) :
    ((unfollowHandler db uid target).1).favorites = db.favorites := by
  unfold unfollowHandler unfollow
  repeat' split
  all_goals rfl

/-- Profile update does not touch favorites. -/
theorem favs_updateProfileHandler (db : DB) (now uid : Nat) (up : UserPatch) :
    ((updateProfileHandler db now uid up).1).favorites = db.favorites := by
  unfold updateProfileHandler updateUser
  repeat' split
  all_goals rfl

/-- Recipe deletion filters favorites, so pair uniqueness survives. -/
theorem favInv_deleteRecipeHandler (db : DB) (uid rid : Nat) (h : FavPairUnique db) :
    FavPairUnique (deleteRecipeHandler db uid rid).1 := by
  unfold deleteRecipeHandler
  repeat' split
  all_goals first
    | exact h
    | exact List.Pairwise.sublist (List.filter_sublist _) h

/-- Favorite removal filters favorites, so pair uniqueness survives. -/
theorem favInv_deleteFavoriteHandler (db : DB) (uid rid : Nat) (h : FavPairUnique db) :
    FavPairUnique (deleteFavoriteHandler db uid rid).1 := by
  unfold deleteFavoriteHandler
  repeat' split
  all_goals first
    | exact h
    | exact List.Pairwise.sublist (List.filter_sublist _) h

/-- The favorite route only inserts after the isFavorite precondition check
reports that no row for the pair exists, so pair uniqueness survives. -/
theorem favInv_postFavoriteHandler (db : DB) (now uid rid : Nat) (h : FavPairUnique db) :
    FavPairUnique (postFavoriteHandler db now uid rid).1 := by
  unfold postFavoriteHandler
  split
  · exact h
  · split
    · exact h
    · split
      · exact h
      · rename_i hfav
        show FavPairUnique (addFavorite db now { userId := uid, recipeId := rid }).1
        have hgoal : (addFavorite db now { userId := uid, recipeId := rid }).1.favorites
            = db.favorites ++
              [{ id := db.nextFavoriteId, userId := uid, recipeId := rid,
                 createdAt := now }] := rfl
        unfold FavPairUnique
        rw [hgoal]
        refine List.pairwise_append.mpr ⟨h, List.pairwise_singleton _ _, ?_⟩
        intro a ha b hb
        obtain rfl := List.mem_singleton.mp hb
        have hf : isFavorite db uid rid = false := by
          cases hI : isFavorite db uid rid with
          | false => rfl
          | true => exact absurd hI hfav
        unfold isFavorite at hf
        have hnone : db.favorites.find?
            (fun f => f.userId == uid && f.recipeId == rid) = none := by
          cases hF : db.favorites.find? (fun f => f.userId == uid && f.recipeId == rid) with
          | none => rfl
          | some v => rw [hF] at hf; simp at hf
        have hall := List.find?_eq_none.mp hnone a ha
        simp only [Bool.and_eq_true, beq_iff_eq, not_and] at hall
        by_cases hA : a.userId = uid
        · exact Or.inr (hall hA)
        · exact Or.inl hA

/-- Pair uniqueness of favorites is preserved by every public handler call. -/
theorem favInv_step {a b : DB} (s : HandlerStep a b) (h : FavPairUnique a) :
    FavPairUnique b := by
  cases s with
  | register now data => exact favInv_of_eq (favs_registerHandler a now data) h
  | createPet now uid body => exact favInv_of_eq (favs_createPetHandler a now uid body) h
  | updatePet now uid pid pp => exact favInv_of_eq (favs_updatePetHandler a now uid pid pp) h
  | deletePet uid pid => exact favInv_of_eq (favs_deletePetHandler a uid pid) h
  | createRecipe now uid body =>
      exact favInv_of_eq (favs_createRecipeHandler a now uid body) h
  | updateRecipe now uid rid rp =>
      exact favInv_of_eq (favs_updateRecipeHandler a now uid rid rp) h
  | deleteRecipe uid rid => exact favInv_deleteRecipeHandler a uid rid h
  | cook now uid rid => exact favInv_of_eq (favs_cookHandler a now uid rid) h
  | createComment now uid rid body =>
      exact favInv_of_eq (favs_createCommentHandler a now uid rid body) h
  | deleteComment uid cid => exact favInv_of_eq (favs_deleteCommentHandler a uid cid) h
  | postFavorite now uid rid => exact favInv_postFavoriteHandler a now uid rid h
  | deleteFavorite uid rid => exact favInv_deleteFavoriteHandler a uid rid h
  | followUser now uid target => exact favInv_of_eq (favs_followHandler a now uid target) h
  | unfollowUser uid target => exact favInv_of_eq (favs_unfollowHandler a uid target) h
  | updateProfile now uid up => exact favInv_of_eq (favs_updateProfileHandler a now uid up) h

/-- Pair uniqueness of favorites holds in every reachable state. -/
theorem favInv_reachable {db : DB} (h : Reachable db) : FavPairUnique db := by
  induction h with
  | refl => exact List.Pairwise.nil
  | tail hpre hstep ih => exact favInv_step hstep ih

/-- Claim C1: refuted on the code.  Filtering by petType alone works, but
supplying category as well replaces the installed where clause, so a query for
dog treats also returns a cat recipe, and supplying search replaces the
category clause in turn: the filters do not combine with logical AND, only the
last supplied filter applies. -/
theorem C1_getRecipes_filters_overwritten :
    getRecipes dbTwoRecipes (some "dog") none none none none = [recDog] ∧
    getRecipes dbTwoRecipes (some "dog") (some "treats") none none none = [recCat, recDog] ∧
    getRecipes dbTwoRecipes (some "dog") (some "treats") (some "fish") none none = [recCat] ∧
    recCat.petType = PetType.cat :=
  ⟨rfl, rfl, rfl, rfl⟩

/-- Claim C2: refuted on the code.  The set clause of incrementCookCount
computes recipes.cookCount + 1 in JavaScript on the drizzle Column object,
which concatenates to the string with the generic object tag followed by one;
that string fails the integer cast at the database, so every call raises, the
store never changes, no updatedAt is refreshed, and the cook route answers
with the 500 response: no sequence of calls can move cookCount from N to
N plus M.  Shown for every store, every time and every id, and at the route
level on a concrete store whose recipe holds cookCount two. -/
theorem C2_incrementCookCount_never_increments (db : DB) (now id : Nat) :
    cookCountSetValue = "[object Object]1" ∧
    pgIntCast? cookCountSetValue = none ∧
    (incrementCookCount db now id).1 = db ∧
    (incrementCookCount db now id).2 =
      Except.error "invalid input syntax for type integer" ∧
    (cookHandler dbFrame 10 1 1).1 = dbFrame ∧
    (cookHandler dbFrame 10 1 1).2 = HResp.serverError "Server error" ∧
    rFrame.cookCount = 2 ∧
    getRecipe dbFrame 1 = some rFrame :=
  ⟨rfl, rfl, rfl, rfl, rfl, rfl, rfl, rfl⟩

/-- Claim C3: createUser persists the bcrypt digest, which is never the
plaintext, the internal username and email lookups return exactly that
persisted digest for the created row, and a defined getUser result never
carries a password. -/
theorem C3_createUser_password_hashed (db db2 : DB) (now id : Nat) (data : InsertUser)
    (hU : db.users.find? (fun u => u.username == data.username) = none)
    (hE : db.users.find? (fun u => u.email == data.email) = none) :
    getUserByUsername (createUser db now data).1 data.username
      = some (newUserRow db.nextUserId now data) ∧
    getUserByEmail (createUser db now data).1 data.email
      = some (newUserRow db.nextUserId now data) ∧
    (newUserRow db.nextUserId now data).password = bcryptHash data.password ∧
    bcryptHash data.password ≠ data.password ∧
    ((getUser db2 id).map UserOut.password).getD none = none := by
  refine ⟨?_, ?_, rfl, ?_, ?_⟩
  · show ((db.users ++ [newUserRow db.nextUserId now data]).find?
        (fun u => u.username == data.username)) = some (newUserRow db.nextUserId now data)
    rw [List.find?_append, hU]
    simp [newUserRow]
  · show ((db.users ++ [newUserRow db.nextUserId now data]).find?
        (fun u => u.email == data.email)) = some (newUserRow db.nextUserId now data)
    rw [List.find?_append, hE]
    simp [newUserRow]
  · intro hEq
    have hlen := congrArg String.length hEq
    unfold bcryptHash at hlen
    rw [String.length_append] at hlen
    have h7 : ("$2b$10$" : String).length = 7 := by decide
    rw [h7] at hlen
    omega
  · cases hF : db2.users.find? (fun u => u.id == id) with
    | none => simp [getUser, hF]
    | some u => simp [getUser, hF, UserRow.stripPassword]

/-- Witness for C3 at a concrete store. -/
theorem C3_createUser_password_hashed_witness :
    getUserByUsername (createUser {} 0 anaData).1 "ana" = some (newUserRow 1 0 anaData) ∧
    getUserByEmail (createUser {} 0 anaData).1 "ana@x.com" = some (newUserRow 1 0 anaData) ∧
    (newUserRow 1 0 anaData).password = bcryptHash "pw" ∧
    bcryptHash "pw" ≠ "pw" ∧
    ((getUser dbS3 1).map UserOut.password).getD none = none :=
  C3_createUser_password_hashed {} dbS3 0 1 anaData rfl rfl

/-- Claim C4: after a users row is deleted, the declared cascade rules leave no
pet, recipe, comment or favorite of that user in the store, so the user-keyed
queries of the storage interface return nothing for that user. -/
theorem C4_deleteUser_cascade (db : DB) (uid : Nat) :
    ((deleteUser db uid).pets.all (fun p => !(p.userId == uid))) = true ∧
    ((deleteUser db uid).recipes.all (fun r => !(r.userId == uid))) = true ∧
    ((deleteUser db uid).comments.all (fun c => !(c.userId == uid))) = true ∧
    ((deleteUser db uid).favorites.all (fun f => !(f.userId == uid))) = true ∧
    getPetsByUser (deleteUser db uid) uid = [] ∧
    getRecipesByUser (deleteUser db uid) uid = [] ∧
    getFavorites (deleteUser db uid) uid = [] := by
  refine ⟨?_, ?_, ?_, ?_, ?_, ?_, ?_⟩
  · rw [List.all_eq_true]
    intro x hx
    exact (List.mem_filter.mp hx).2
  · rw [List.all_eq_true]
    intro x hx
    exact (List.mem_filter.mp hx).2
  · rw [List.all_eq_true]
    intro x hx
    have hnd := not_dead0_of_mem_commentCascade db.comments _ x hx
    cases hxy : (x.userId == uid) with
    | false => rfl
    | true => rw [hxy] at hnd; simp at hnd
  · rw [List.all_eq_true]
    intro x hx
    have h2 := (List.mem_filter.mp hx).2
    simp only [Bool.and_eq_true] at h2
    exact h2.1
  · refine List.filter_eq_nil_iff.mpr ?_
    intro a ha hq
    have h2 := (List.mem_filter.mp ha).2
    rw [hq] at h2
    exact absurd h2 (by decide)
  · have hnil : (deleteUser db uid).recipes.filter (fun r => r.userId == uid) = [] := by
      refine List.filter_eq_nil_iff.mpr ?_
      intro a ha hq
      have h2 := (List.mem_filter.mp ha).2
      rw [hq] at h2
      exact absurd h2 (by decide)
    show sortByDesc RecipeRow.createdAt
        ((deleteUser db uid).recipes.filter (fun r => r.userId == uid)) = []
    rw [hnil]
    rfl
  · have hnil : (deleteUser db uid).favorites.filter (fun f => f.userId == uid) = [] := by
      refine List.filter_eq_nil_iff.mpr ?_
      intro a ha hq
      have h2 := (List.mem_filter.mp ha).2
      simp only [Bool.and_eq_true] at h2
      have h3 := h2.1
      rw [hq] at h3
      exact absurd h3 (by decide)
    show (sortByDesc FavoriteRow.createdAt
        ((deleteUser db uid).favorites.filter (fun f => f.userId == uid))).flatMap
          (fun f => (deleteUser db uid).recipes.filter (fun r => r.id == f.recipeId)) = []
    rw [hnil]
    rfl

/-- Claim C5: in every state reachable through the public route handlers the
favorites table holds at most one row per (userId, recipeId) pair, and a second
favorite attempt for an already favorited pair by the same logged-in user is
rejected with the duplicate signal and leaves the store unchanged. -/
theorem C5_favorites_pair_unique (db : DB) (now uid rid : Nat)
    (hdb : Reachable db) :
    FavPairUnique db ∧
      (isFavorite db uid rid = true → (getRecipe db rid).isSome = true →
        (getUser db uid).isSome = true →
        postFavoriteHandler db now uid rid =
          (db, HResp.badRequest "Recipe already favorited")) := by
  refine ⟨favInv_reachable hdb, ?_⟩
  intro hfav hrec hauth
  obtain ⟨u, hu⟩ := Option.isSome_iff_exists.mp hauth
  obtain ⟨r0, hr0⟩ := Option.isSome_iff_exists.mp hrec
  unfold postFavoriteHandler
  rw [hu, hr0, hfav]
  rfl

/-- Witness for C5 at a concrete reachable store: register, create a recipe,
favorite it, then attempt to favorite it again. -/
theorem C5_favorites_pair_unique_witness :
    (FavPairUnique dbS3 ∧
      (isFavorite dbS3 1 1 = true → (getRecipe dbS3 1).isSome = true →
        (getUser dbS3 1).isSome = true →
        postFavoriteHandler dbS3 3 1 1 =
          (dbS3, HResp.badRequest "Recipe already favorited"))) ∧
    postFavoriteHandler dbS3 3 1 1 =
      (dbS3, HResp.badRequest "Recipe already favorited") := by
  have h := C5_favorites_pair_unique dbS3 3 1 1
    (Relation.ReflTransGen.tail
      (Relation.ReflTransGen.tail
        (Relation.ReflTransGen.tail Relation.ReflTransGen.refl
          (HandlerStep.register {} 0 anaData))
        (HandlerStep.createRecipe dbS1 1 1 frangoBody))
      (HandlerStep.postFavorite dbS2 2 1 1))
  exact ⟨h, h.2 (by decide) (by decide) (by decide)⟩

/-- Claim C6: when a user with the same username or the same email already
exists, registration answers with the duplicate signal and creates nothing. -/
theorem C6_register_duplicate (db : DB) (now : Nat) (data : InsertUser)
    (h : db.users.any (fun u =>
      u.username == data.username || u.email == data.email) = true) :
    (registerHandler db now data).1 = db ∧
    ((registerHandler db now data).2 = HResp.badRequest "Email already registered" ∨
     (registerHandler db now data).2 = HResp.badRequest "Username already taken") := by
  cases hE : getUserByEmail db data.email with
  | some u =>
    unfold registerHandler
    rw [hE]
    exact ⟨rfl, Or.inl rfl⟩
  | none =>
    cases hU : getUserByUsername db data.username with
    | some u =>
      unfold registerHandler
      rw [hE, hU]
      exact ⟨rfl, Or.inr rfl⟩
    | none =>
      exfalso
      rw [List.any_eq_true] at h
      obtain ⟨u, hu, hor⟩ := h
      unfold getUserByEmail at hE
      unfold getUserByUsername at hU
      have hem := List.find?_eq_none.mp hE u hu
      have hun := List.find?_eq_none.mp hU u hu
      simp only [Bool.or_eq_true] at hor
      rcases hor with h1 | h2
      · exact hun h1
      · exact hem h2

/-- Witness for C6 at a concrete store that already holds the username. -/
theorem C6_register_duplicate_witness :
    (registerHandler dbS1 5 anaDupData).1 = dbS1 ∧
    ((registerHandler dbS1 5 anaDupData).2 = HResp.badRequest "Email already registered" ∨
     (registerHandler dbS1 5 anaDupData).2 = HResp.badRequest "Username already taken") :=
  C6_register_duplicate dbS1 5 anaDupData (by decide)

/-- Claim C7: getComments returns exactly the top level comments of the recipe,
never one with a parent, newest first; getReplies returns exactly the direct
children of the comment, newest first. -/
theorem C7_comments_top_level_replies_direct (db : DB) (rid cid : Nat) :
    List.Perm (getComments db rid)
      (db.comments.filter (fun c => c.recipeId == rid && c.parentId.isNone)) ∧
    List.Sorted (byDesc CommentRow.createdAt) (getComments db rid) ∧
    (getComments db rid).all (fun c => c.parentId.isNone) = true ∧
    List.Perm (getReplies db cid)
      (db.comments.filter (fun c => c.parentId == some cid)) ∧
    List.Sorted (byDesc CommentRow.createdAt) (getReplies db cid) := by
  refine ⟨List.perm_insertionSort _ _, List.sorted_insertionSort _ _, ?_,
    List.perm_insertionSort _ _, List.sorted_insertionSort _ _⟩
  rw [List.all_eq_true]
  intro x hx
  have hx2 : x ∈ db.comments.filter (fun c => c.recipeId == rid && c.parentId.isNone) :=
    (List.perm_insertionSort (byDesc CommentRow.createdAt) _).mem_iff.mp hx
  have h2 := (List.mem_filter.mp hx2).2
  simp only [Bool.and_eq_true] at h2
  exact h2.2

/-- Claim C8: the delete operations report success for every id, matched or not. -/
theorem C8_delete_reports_true (db : DB) (pid rid cid : Nat) :
    (deletePet db pid).2 = true ∧ (deleteRecipe db rid).2 = true ∧
    (deleteComment db cid).2 = true :=
  ⟨rfl, rfl, rfl⟩

/-- Claim C9: a partial update applied to an existing row changes exactly the
supplied fields, leaves every unsupplied field at its stored value, keeps id
and createdAt, and refreshes updatedAt; a supplied truthy password is stored
re-hashed. -/
theorem C9_partial_update_frame (db : DB) (now uid pid rid : Nat)
    (up : UserPatch) (pp : PetPatch) (rp : RecipePatch)
    (u : UserRow) (p : PetRow) (r : RecipeRow)
    (hu : db.users.find? (fun x => x.id == uid) = some u)
    (hp : db.pets.find? (fun x => x.id == pid) = some p)
    (hr : db.recipes.find? (fun x => x.id == rid) = some r) :
    (updateUser db now uid up).1.users.find? (fun x => x.id == uid) =
      some { u with
        username := up.username.getD u.username,
        email := up.email.getD u.email,
        password := match up.password with
          | none => u.password
          | some pw => if pw == "" then pw else bcryptHash pw,
        firstName := up.firstName.getD u.firstName,
        lastName := up.lastName.getD u.lastName,
        state := up.state.getD u.state,
        city := up.city.getD u.city,
        profileImageUrl := up.profileImageUrl.getD u.profileImageUrl,
        updatedAt := now } ∧
    (updatePet db now pid pp).1.pets.find? (fun x => x.id == pid) =
      some { p with
        userId := pp.userId.getD p.userId,
        name := pp.name.getD p.name,
        type := pp.type.getD p.type,
        breed := pp.breed.getD p.breed,
        age := pp.age.getD p.age,
        weight := pp.weight.getD p.weight,
        profileImageUrl := pp.profileImageUrl.getD p.profileImageUrl,
        updatedAt := now } ∧
    (updateRecipe db now rid rp).1.recipes.find? (fun x => x.id == rid) =
      some { r with
        userId := rp.userId.getD r.userId,
        title := rp.title.getD r.title,
        ingredients := rp.ingredients.getD r.ingredients,
        instructions := rp.instructions.getD r.instructions,
        petType := rp.petType.getD r.petType,
        category := rp.category.getD r.category,
        cookingType := rp.cookingType.getD r.cookingType,
        prepTime := rp.prepTime.getD r.prepTime,
        imageUrl := rp.imageUrl.getD r.imageUrl,
        youtubeUrl := rp.youtubeUrl.getD r.youtubeUrl,
        cookCount := rp.cookCount.getD r.cookCount,
        updatedAt := now } := by
  refine ⟨?_, ?_, ?_⟩
  · show ((db.users.map (fun x => if x.id == uid then applyUserPatch now up x else x)).find?
        (fun x => x.id == uid)) = _
    rw [find?_map_ite UserRow.id uid (applyUserPatch now up) (fun a ha => ha) db.users u hu]
    unfold applyUserPatch userPatchPassword
    cases hpw : up.password with
    | none => rfl
    | some pw =>
      by_cases hpe : (pw == "") = true
      · simp [hpe]
      · simp [hpe]
  · show ((db.pets.map (fun x => if x.id == pid then applyPetPatch now pp x else x)).find?
        (fun x => x.id == pid)) = _
    rw [find?_map_ite PetRow.id pid (applyPetPatch now pp) (fun a ha => ha) db.pets p hp]
    rfl
  · show ((db.recipes.map
        (fun x => if x.id == rid then applyRecipePatch now rp x else x)).find?
        (fun x => x.id == rid)) = _
    rw [find?_map_ite RecipeRow.id rid (applyRecipePatch now rp) (fun a ha => ha)
      db.recipes r hr]
    rfl

/-- Witness for C9 at a concrete store with patches supplying only some fields. -/
theorem C9_partial_update_frame_witness :
    (updateUser dbFrame 9 1 upFrame).1.users.find? (fun x => x.id == 1) =
      some { uFrame with firstName := some "Ana", updatedAt := 9 } ∧
    (updatePet dbFrame 9 1 ppFrame).1.pets.find? (fun x => x.id == 1) =
      some { pFrame with name := "Bobby", updatedAt := 9 } ∧
    (updateRecipe dbFrame 9 1 rpFrame).1.recipes.find? (fun x => x.id == 1) =
      some { rFrame with title := "Frango Novo", cookCount := 7, updatedAt := 9 } :=
  C9_partial_update_frame dbFrame 9 1 1 1 upFrame ppFrame rpFrame uFrame pFrame rFrame
    rfl rfl rfl

/-- Claim C10: every user record returned by getFollowers and getFollowing has
the password stripped. -/
theorem C10_follower_lists_password_stripped (db : DB) (uid : Nat) :
    ((getFollowers db uid).all (fun u => u.password.isNone)) = true ∧
    ((getFollowing db uid).all (fun u => u.password.isNone)) = true := by
  constructor <;>
  · rw [List.all_eq_true]
    intro x hx
    obtain ⟨y, hy, rfl⟩ := List.mem_map.mp hx
    rfl

end CozinhaPet
